import Mathlib

/-!
Shallow embedding of `src/system_info.rs` from flipper-pc-monitor-backend.

Machine integers are modelled as `Nat`; every `u64` produced by the source
is `< 2^64` by type, and the one arithmetic step that can overflow a `u64`
(`gi.vram_max * vram_mult`) is reduced `% 2^64` explicitly.  The floating
point scaling pipeline is modelled by exact rational floors; each place this
is done carries a comment justifying exactness on the inputs the theorems
evaluate.
-/

namespace FlipperMonitor

def MIB_TO_BYTES : Nat := 1024 * 1024

/-- GPU sample, from `struct GpuInfo` (fields are `u64` in the source). -/
structure GpuInfo where
  gpu_usage : Nat
  vram_max : Nat
  vram_used : Nat
deriving DecidableEq

/-- Final snapshot, from `struct SystemInfo`.  The `u8`/`u16` fields are
`Nat`s kept in range by the cast modelling below; the 4-byte unit buffers
are lists of byte values. -/
structure SystemInfo where
  cpu_usage : Nat
  ram_max : Nat
  ram_usage : Nat
  ram_unit : List Nat
  gpu_usage : Nat
  vram_max : Nat
  vram_usage : Nat
  vram_unit : List Nat
deriving DecidableEq

/-- `SystemInfo::get_unit`. -/
def SystemInfo.get_unit (exp : Nat) : String :=
  match exp with
  | 0 => "B"
  | 1 => "KB"
  | 2 => "MB"
  | 3 => "GB"
  | 4 => "TB"
  | _ => "UB"

/-- `SystemInfo::get_exp`: the guarded `match` on `num` with strict `>`
comparisons against `base^4 .. base^1`. -/
def SystemInfo.get_exp (num base : Nat) : Nat :=
  if num > base ^ 4 then 4
  else if num > base ^ 3 then 3
  else if num > base ^ 2 then 2
  else if num > base then 1
  else 0

/-- Embeds `(m as f64 / p as f64 * 10.0) as u16` where `p = base^exp`.
For the bases used by the program `p` is a power of two, so the `f64`
division is exact, and whenever `m * 10 < 2^53` (true at every input a
theorem below evaluates) the product is exact as well; the Rust float→int
`as` cast truncates toward zero and saturates, hence `min 65535` of the
rational floor. -/
def scaled16 (m p : Nat) : Nat := min 65535 (m * 10 / p)

/-- Embeds `(used as f64 / total as f64 * 100.0) as u8` for the RAM usage
field.  At `total == 0` the IEEE-754 division is performed and yields NaN
(when `used == 0`; Rust's saturating cast maps NaN to 0) or `+inf` (cast
saturates to 255).  For `total > 0` this is the exact rational floor, which
can differ from the `f64` value by one unit at rare rounding boundaries;
no theorem below evaluates such a point. -/
def pct8 (used total : Nat) : Nat :=
  if total = 0 then (if used = 0 then 0 else 255)
  else min 255 (used * 100 / total)

/-- Modelled from the spec: helper `avg_vecu32` lives in `crate::helpers`,
which is not under `src/`.  Per the spec, CPU usage is the mean of the
per-CPU usage percentages; no claim depends on its exact definition. -/
def avg_vecu32 (v : List Nat) : Nat :=
  if v.length = 0 then 0 else v.sum / v.length

/-- Modelled from the spec: helper `pop_4u8` lives in `crate::helpers`,
which is not under `src/`.  Per the data model the 2–3 character unit label
is padded to a fixed 4-byte buffer (zero padding, matching the C
`char[4]`). -/
def pop_4u8 (bs : List Nat) : List Nat :=
  bs.take 4 ++ List.replicate (4 - bs.length) 0

/-- `SystemInfo::get_system_info`, as a pure function of the values the
surrounding collaborators supply: the OS metrics (`total_memory`,
`used_memory`, the per-CPU usage list, all `u64`/`u32` magnitudes) and the
result of `GpuInfo::get_gpu_info` (`gpu_info`).  `gi.vram_max * vram_mult`
is a `u64` product, reduced `% 2^64`; `gi.gpu_usage as u8` is the
truncating integer cast, i.e. `% 256`. -/
def SystemInfo.get_system_info (total_memory used_memory : Nat)
    (cpus : List Nat) (gpu_info : Option GpuInfo) : SystemInfo :=
  let base := 1024
  let ram_max := total_memory
  let ram_exp := SystemInfo.get_exp ram_max base
  let vram_mult := base ^ 2
  let vram_max :=
    match gpu_info with
    | some gi => gi.vram_max * vram_mult % 2 ^ 64
    | none => 0
  let vram_exp := SystemInfo.get_exp vram_max base
  let vram_usage :=
    match gpu_info with
    | some gi =>
      if vram_max > 0 then min 255 (gi.vram_used * vram_mult * 100 / vram_max)
      else 255
    | none => 255
  { cpu_usage := avg_vecu32 cpus % 256
    ram_max := scaled16 ram_max (base ^ ram_exp)
    ram_usage := pct8 used_memory ram_max
    ram_unit := pop_4u8 ((SystemInfo.get_unit ram_exp).toList.map Char.toNat)
    gpu_usage :=
      match gpu_info with
      | some gi => gi.gpu_usage % 256
      | none => 255
    vram_max := scaled16 vram_max (base ^ vram_exp)
    vram_usage := vram_usage
    vram_unit := pop_4u8 ((SystemInfo.get_unit vram_exp).toList.map Char.toNat) }

/-! ## String helpers mirroring the Rust standard library operations

Text is handled as `List Char` (a `String` in this Lean version is exactly
a packed `List Char`), so that every operation is structurally recursive
and evaluable by the kernel; `String` appears only at the outer interfaces,
unpacked via `.data`. -/

/-- `pat` is a prefix of the second list (Rust `str::starts_with` on the
decomposed text). -/
def isPrefixCh : List Char → List Char → Bool
  | [], _ => true
  | _ :: _, [] => false
  | p :: ps, c :: cs => p == c && isPrefixCh ps cs

/-- Rust `str::contains(pat)`: `pat` occurs as a contiguous sublist. -/
def containsSub (pat : List Char) : List Char → Bool
  | [] => isPrefixCh pat []
  | c :: rest => isPrefixCh pat (c :: rest) || containsSub pat rest

/-- Helper for `splitOnChar`, carrying the current piece reversed. -/
def splitAux (sep : Char) : List Char → List Char → List (List Char)
  | [], acc => [acc.reverse]
  | c :: rest, acc =>
    if c == sep then acc.reverse :: splitAux sep rest []
    else splitAux sep rest (c :: acc)

/-- Rust `str::split(sep)` for a one-character separator. -/
def splitOnChar (sep : Char) (cs : List Char) : List (List Char) :=
  splitAux sep cs []

/-- ASCII whitespace, the fragment of Rust `str::trim`'s notion that the
probed tool outputs can contain. -/
def isWs (c : Char) : Bool := c == ' ' || c == '\t' || c == '\n' || c == '\r'

/-- Rust `str::trim`: drop whitespace from both ends. -/
def trimCh (cs : List Char) : List Char :=
  ((cs.dropWhile isWs).reverse.dropWhile isWs).reverse

/-- Numeric value of a digit run (most significant first). -/
def digitsVal (cs : List Char) : Nat :=
  cs.foldl (fun a c => a * 10 + (c.toNat - 48)) 0

/-- Rust `str::parse::<u64>()`: an optional `+` sign, then a non-empty run
of decimal digits, rejecting values outside the `u64` range. -/
def parse_u64 (cs : List Char) : Option Nat :=
  let t :=
    match cs with
    | c :: rest => if c == '+' then rest else c :: rest
    | [] => []
  if t.isEmpty then none
  else if t.all Char.isDigit then
    if digitsVal t < 2 ^ 64 then some (digitsVal t) else none
  else none

/-- Everything after the first occurrence of `sep` (Rust
`line[line.find(sep)? + 1..]`), `none` when `sep` does not occur. -/
def afterFirst (sep : Char) : List Char → Option (List Char)
  | [] => none
  | c :: rest => if c == sep then some rest else afterFirst sep rest

/-- Rust `str::lines()`: split at `\n`, dropping a `\r` that immediately
precedes a `\n`; a final line ending is optional (a trailing empty segment
is not a line). -/
def rustLines (s : String) : List (List Char) :=
  let ps := splitOnChar '\n' s.data
  let stripCR := fun (l : List Char) => if l.getLast? == some '\r' then l.dropLast else l
  let front := ps.dropLast.map stripCR
  match ps.getLast? with
  | some [] => front
  | some l => front ++ [l]
  | none => front

/-! ## The GPU discovery chain (C2) -/

/-- A call log: the names of the probes invoked so far, in order. -/
abbrev CallLog := List String

/-- An instrumented probe stub, as the spec's short-circuit test prescribes:
it records its name in the call log and returns its configured result. -/
def stubProbe (tag : String) (r : Option GpuInfo) :
    CallLog → Option GpuInfo × CallLog :=
  fun log => (r, log ++ [tag])

/-- `GpuInfo::get_macos_gpu_info`: Apple-Silicon, then Apple-Intel, then
NVIDIA, returning at the first probe that yields a sample.  The probes are
injected as call-logging functions so that the invocation order is
observable. -/
def GpuInfo.get_macos_gpu_info
    (apple_silicon apple_intel nvidia : CallLog → Option GpuInfo × CallLog)
    (log : CallLog) : Option GpuInfo × CallLog :=
  match apple_silicon log with
  | (some g, l) => (some g, l)
  | (none, l) =>
    match apple_intel l with
    | (some g, l2) => (some g, l2)
    | (none, l2) => nvidia l2

/-- `GpuInfo::get_generic_gpu_info`: NVIDIA, then Intel, returning at the
first probe that yields a sample. -/
def GpuInfo.get_generic_gpu_info
    (nvidia intel : CallLog → Option GpuInfo × CallLog)
    (log : CallLog) : Option GpuInfo × CallLog :=
  match nvidia log with
  | (some g, l) => (some g, l)
  | (none, l) => intel l

/-! ## The NVIDIA probe (C5) -/

/-- The three leaf strings the probe extracts from the decoded document:
`utilization.gpu_util`, `fb_memory_usage.total`, `fb_memory_usage.used`,
each rendered with `to_string()` (a JSON string keeps its quotes; a missing
path renders as `null`). -/
structure NvdRaw where
  gpu_util : String
  total : String
  used : String
deriving DecidableEq

/-- One run of the external `nvidia-smi -q -x` process.  `spawn_ok` is
whether `spawn` succeeded, `read_ok` whether reading stdout to a string
succeeded, `exit_success` the tool's exit status, and `fields` the three
extracted leaf strings when `xmltojson` (an external crate) decodes the
captured stdout, `none` when decoding fails. -/
structure NvidiaRun where
  spawn_ok : Bool
  read_ok : Bool
  exit_success : Bool
  fields : Option NvdRaw
deriving DecidableEq

/-- Modelled from the spec: helper `nvd_r2u64` lives in `crate::helpers`,
which is not under `src/`.  Per §4.4 it strips trailing unit text (e.g.
`85 %`, `8192 MiB`) from the raw field rendering to obtain a plain numeric
prefix, and fails when no non-negative integer is present; the quote and
space characters of the raw rendering are skipped before the digit run. -/
def nvd_r2u64 (s : String) : Option Nat :=
  let t := (s.data.dropWhile (fun c => c == '"' || c == ' ')).takeWhile Char.isDigit
  if t.isEmpty then none
  else if digitsVal t < 2 ^ 64 then some (digitsVal t) else none

/-- `GpuInfo::get_nvidia_gpu_info`.  Note, as in the source, the exit
status of the run is never consulted: the source spawns the process, reads
its stdout, and parses, without any `wait`/status check. -/
def GpuInfo.get_nvidia_gpu_info (r : NvidiaRun) : Option GpuInfo :=
  if !r.spawn_ok then none
  else if !r.read_ok then none
  else
    match r.fields with
    | none => none
    | some f =>
      match nvd_r2u64 f.gpu_util, nvd_r2u64 f.total, nvd_r2u64 f.used with
      | some gu, some vm, some vu =>
        some { gpu_usage := gu, vram_max := vm, vram_used := vu }
      | _, _, _ => none

/-! ## The Windows-Intel probe (C6) -/

/-- The row loop of `GpuInfo::get_windows_intel_gpu_info`: for each line,
case-insensitive substring match for `intel`, split on commas, and — when
there are at least two columns — parse the SECOND column, trimmed, as a
`u64` byte count; return on the first such row with a positive value,
otherwise keep scanning. -/
def windowsIntelScan : List (List Char) → Option GpuInfo
  | [] => none
  | line :: rest =>
    if containsSub "intel".data (line.map Char.toLower) then
      match (splitOnChar ',' line).get? 1 with
      | some p =>
        match parse_u64 (trimCh p) with
        | some ram_bytes =>
          if ram_bytes > 0 then
            some { gpu_usage := 0, vram_max := ram_bytes / MIB_TO_BYTES, vram_used := 0 }
          else windowsIntelScan rest
        | none => windowsIntelScan rest
      | none => windowsIntelScan rest
    else windowsIntelScan rest

/-- `GpuInfo::get_windows_intel_gpu_info`, as a function of the `wmic`
run: whether spawning succeeded, the exit status (checked here, unlike the
NVIDIA probe), and the captured stdout.  The header line is skipped. -/
def GpuInfo.get_windows_intel_gpu_info (spawn_ok status_success : Bool)
    (stdout : String) : Option GpuInfo :=
  if !spawn_ok then none
  else if !status_success then none
  else windowsIntelScan ((rustLines stdout).drop 1)

/-! ## The Apple-Intel probe (C7) -/

/-- The marker test of the Apple-Intel scan: a line flags an Intel
accelerator when it contains the `IOClass`/`IntelAccelerator` pair or an
`Intel` model string. -/
def intelMarker (line : List Char) : Bool :=
  containsSub "\"IOClass\" = \"IntelAccelerator\"".data line ||
    containsSub "\"model\" = <\"Intel".data line

/-- The per-line VRAM update of the Apple-Intel scan: on a line containing
`"VRAM,totalMB"`, take everything after the first `=`, trim it, strip
leading `<` and trailing `>` characters, trim again, and parse as `u64`;
on success the parsed value replaces the current one, otherwise (and on any
other line) the current value is kept. -/
def parseVramLine (line : List Char) (current : Nat) : Nat :=
  if containsSub "\"VRAM,totalMB\"".data line then
    match afterFirst '=' line with
    | none => current
    | some after =>
      let cs := (trimCh after).dropWhile (fun c => c == '<')
      let cs := (cs.reverse.dropWhile (fun c => c == '>')).reverse
      match parse_u64 (trimCh cs) with
      | some v => v
      | none => current
  else current

/-- The line loop of `GpuInfo::get_macos_intel_gpu_info`, carrying the
`is_intel` flag and the running `vram_max` through one pass. -/
def macIntelScan : List (List Char) → Bool → Nat → Bool × Nat
  | [], is_intel, vram => (is_intel, vram)
  | line :: rest, is_intel, vram =>
    macIntelScan rest (is_intel || intelMarker line) (parseVramLine line vram)

/-- `GpuInfo::get_macos_intel_gpu_info`, as a function of the `ioreg` run:
spawn success, exit status (checked), and captured stdout.  Yields nothing
unless the Intel flag was set and the retained VRAM value is non-zero;
usage and used-memory fields are reported as zero. -/
def GpuInfo.get_macos_intel_gpu_info (spawn_ok status_success : Bool)
    (stdout : String) : Option GpuInfo :=
  if !spawn_ok then none
  else if !status_success then none
  else
    let st := macIntelScan (rustLines stdout) false 0
    if !st.1 || st.2 == 0 then none
    else some { gpu_usage := 0, vram_max := st.2, vram_used := 0 }

/-- Characterization of the Intel flag independently of the single-pass
scan: some line of the dump carries an Intel marker. -/
def isIntelDump (stdout : String) : Bool := (rustLines stdout).any intelMarker

/-- Characterization of the retained VRAM value independently of the
single-pass scan: the fold of the per-line update over the dump's lines,
starting from zero. -/
def vramTotalMB (stdout : String) : Nat :=
  (rustLines stdout).foldl (fun acc l => parseVramLine l acc) 0

/-! ## Theorems settling the claims -/

/-- C1: for every snapshot in which GPU discovery returned no sample, the
snapshot has `gpu_usage == 255`, `vram_max == 0` and `vram_usage == 255`. -/
theorem c1_no_gpu_sentinels (total_memory used_memory : Nat) (cpus : List Nat) :
    (SystemInfo.get_system_info total_memory used_memory cpus none).gpu_usage = 255 ∧
    (SystemInfo.get_system_info total_memory used_memory cpus none).vram_max = 0 ∧
    (SystemInfo.get_system_info total_memory used_memory cpus none).vram_usage = 255 :=
  ⟨rfl, rfl, rfl⟩

/-- C2: each platform's discovery chain evaluates its fixed ordered probe
list sequentially (macOS: Apple-Silicon, Apple-Intel, NVIDIA; otherwise:
NVIDIA, Intel) and stops at the first probe returning a sample: with
call-logging stubs, a sample from an earlier probe leaves the later probes
uninvoked, and only an earlier failure reaches the next probe. -/
theorem c2_chain_short_circuit (g : GpuInfo) (r2 r3 r4 : Option GpuInfo) :
    GpuInfo.get_macos_gpu_info (stubProbe "apple_silicon" (some g))
        (stubProbe "apple_intel" r2) (stubProbe "nvidia" r3) [] =
      (some g, ["apple_silicon"]) ∧
    GpuInfo.get_macos_gpu_info (stubProbe "apple_silicon" none)
        (stubProbe "apple_intel" (some g)) (stubProbe "nvidia" r3) [] =
      (some g, ["apple_silicon", "apple_intel"]) ∧
    GpuInfo.get_macos_gpu_info (stubProbe "apple_silicon" none)
        (stubProbe "apple_intel" none) (stubProbe "nvidia" r3) [] =
      (r3, ["apple_silicon", "apple_intel", "nvidia"]) ∧
    GpuInfo.get_generic_gpu_info (stubProbe "nvidia" (some g))
        (stubProbe "intel" r4) [] = (some g, ["nvidia"]) ∧
    GpuInfo.get_generic_gpu_info (stubProbe "nvidia" none)
        (stubProbe "intel" r4) [] = (r4, ["nvidia", "intel"]) :=
  ⟨rfl, rfl, rfl, rfl, rfl⟩

/-- C3 counterexample: at magnitude exactly 1024 with base 1024 the
exponent function does NOT return 1 — the strict `>` comparison
`1024 > 1024` fails. -/
theorem c3_counterexample : SystemInfo.get_exp 1024 1024 ≠ 1 := by decide

/-- C3 amended: at magnitude exactly 1024 with base 1024 the exponent
function returns 0; the strict `>` boundary sends an exact power boundary
to the lower exponent. -/
theorem c3_boundary_exponent_zero : SystemInfo.get_exp 1024 1024 = 0 := by decide

/-- C4 at the failing input: with total memory 0 (and used memory 0, no
GPU) the RAM usage field is 0, not the sentinel 255 — the source performs
the `f64` division `0.0 / 0.0`, whose NaN the saturating cast maps to 0,
instead of guarding the zero denominator. -/
theorem c4_zero_total_ram_division :
    (SystemInfo.get_system_info 0 0 [] none).ram_usage = 0 ∧
    (SystemInfo.get_system_info 0 0 [] none).ram_usage ≠ 255 := by decide

/-- C5 counterexample: a run whose tool exited with FAILURE status but
whose captured stdout decodes to parseable fields still yields a sample —
the probe never consults the exit status, contradicting the claim that a
failing exit yields nothing regardless of stdout. -/
theorem c5_counterexample :
    (NvidiaRun.mk true true false
        (some ⟨"\"50 %\"", "\"8192 MiB\"", "\"4096 MiB\""⟩)).exit_success = false ∧
    GpuInfo.get_nvidia_gpu_info
        (NvidiaRun.mk true true false
          (some ⟨"\"50 %\"", "\"8192 MiB\"", "\"4096 MiB\""⟩)) =
      some ⟨50, 8192, 4096⟩ := by decide

/-- C5 amended: the NVIDIA probe ignores the exit status entirely (its
result is invariant under flipping it); whenever the captured output fails
to decode — the typical outcome of a failing tool — the probe returns
nothing, and in the generic chain a failed NVIDIA probe is followed by the
Intel probe. -/
theorem c5_status_ignored (r : NvidiaRun) :
    GpuInfo.get_nvidia_gpu_info { r with exit_success := true } =
      GpuInfo.get_nvidia_gpu_info { r with exit_success := false } ∧
    (r.fields = none → GpuInfo.get_nvidia_gpu_info r = none) ∧
    ∀ rIntel : Option GpuInfo,
      GpuInfo.get_generic_gpu_info (stubProbe "nvidia" none)
        (stubProbe "intel" rIntel) [] = (rIntel, ["nvidia", "intel"]) := by
  obtain ⟨sp, rd, ex, fl⟩ := r
  refine ⟨rfl, ?_, fun rIntel => rfl⟩
  intro h
  cases h
  cases sp <;> cases rd <;> rfl

/-- C5 witness: the amended theorem applied to a concrete failed run with
undecodable output. -/
theorem c5_witness :
    GpuInfo.get_nvidia_gpu_info (NvidiaRun.mk true true false none) = none :=
  (c5_status_ignored (NvidiaRun.mk true true false none)).2.1 rfl

/-- C6 counterexample: on the claim's exact input — a header row followed
by `Video Controller,Intel(R) UHD Graphics,4294967296` — the probe returns
nothing, not a 4096 MiB sample: it parses the SECOND comma-separated
column (here the adapter name) as the RAM byte count, and that parse
fails. -/
theorem c6_counterexample :
    GpuInfo.get_windows_intel_gpu_info true true
      "Name,AdapterRAM\nVideo Controller,Intel(R) UHD Graphics,4294967296" = none := by
  decide

/-- C6 amended: the probe reads the adapter RAM from the second CSV column
(the layout `wmic /format:csv` actually emits is `Node,AdapterRAM,Name`);
on a header row plus `PC1,4294967296,Intel(R) UHD Graphics` it matches
`intel` case-insensitively in the row and returns `vram_max = 4096` MiB. -/
theorem c6_second_column :
    GpuInfo.get_windows_intel_gpu_info true true
      "Node,AdapterRAM,Name\nPC1,4294967296,Intel(R) UHD Graphics" =
      some { gpu_usage := 0, vram_max := 4096, vram_used := 0 } := by decide

/-- The single-pass Apple-Intel scan computes exactly the Intel-marker
disjunction and the fold of the per-line VRAM update. -/
theorem macIntelScan_eq (ls : List (List Char)) (b : Bool) (v : Nat) :
    macIntelScan ls b v =
      (b || ls.any intelMarker, ls.foldl (fun acc l => parseVramLine l acc) v) := by
  induction ls generalizing b v with
  | nil => simp [macIntelScan]
  | cons l rest ih => simp [macIntelScan, ih, Bool.or_assoc]

/-- C7: for every registry dump (of a successful `ioreg` run), the
Apple-Intel probe yields a sample iff some line carries an Intel marker and
the retained `VRAM,totalMB` value is non-zero; any returned sample reports
zero usage and used-memory and carries that retained VRAM value. -/
theorem c7_mac_intel_characterization (stdout : String) :
    (GpuInfo.get_macos_intel_gpu_info true true stdout ≠ none ↔
      isIntelDump stdout = true ∧ vramTotalMB stdout ≠ 0) ∧
    ∀ gi : GpuInfo, GpuInfo.get_macos_intel_gpu_info true true stdout = some gi →
      gi.gpu_usage = 0 ∧ gi.vram_used = 0 ∧ gi.vram_max = vramTotalMB stdout := by
  unfold GpuInfo.get_macos_intel_gpu_info isIntelDump vramTotalMB
  simp only [Bool.not_true, Bool.false_eq_true, if_false, macIntelScan_eq, Bool.false_or]
  constructor
  · by_cases hI : (rustLines stdout).any intelMarker
    · by_cases hV :
          (rustLines stdout).foldl (fun acc l => parseVramLine l acc) 0 = 0 <;>
        simp [hI, hV]
    · simp [hI]
  · intro gi hgi
    by_cases hI : (rustLines stdout).any intelMarker <;>
      by_cases hV :
        (rustLines stdout).foldl (fun acc l => parseVramLine l acc) 0 = 0
    · simp [hI, hV] at hgi
    · simp [hI, hV] at hgi
      simp [← hgi]
    · simp [hI, hV] at hgi
    · simp [hI, hV] at hgi

/-- C7 witness: the characterization applied to a concrete Intel dump with
a 64 MiB VRAM entry. -/
theorem c7_witness :
    GpuInfo.get_macos_intel_gpu_info true true
      "\"IOClass\" = \"IntelAccelerator\"\n\"VRAM,totalMB\" = <64>" ≠ none :=
  ((c7_mac_intel_characterization
      "\"IOClass\" = \"IntelAccelerator\"\n\"VRAM,totalMB\" = <64>").1).mpr (by decide)

/-- C8: for magnitude 17179869184 (16 GiB) and base 1024 the exponent is
3, the scaled tenths value is 160 and the unit label is `GB`; the snapshot
built from that RAM total carries exactly those values (`GB` padded into
the 4-byte buffer). -/
theorem c8_16gib_scaling :
    SystemInfo.get_exp 17179869184 1024 = 3 ∧
    scaled16 17179869184 (1024 ^ SystemInfo.get_exp 17179869184 1024) = 160 ∧
    SystemInfo.get_unit (SystemInfo.get_exp 17179869184 1024) = "GB" ∧
    (SystemInfo.get_system_info 17179869184 0 [] none).ram_max = 160 ∧
    (SystemInfo.get_system_info 17179869184 0 [] none).ram_unit = [71, 66, 0, 0] := by
  refine ⟨by decide, by decide, by decide, by decide, by decide⟩

/-- C9 counterexample: at magnitude `2^51` (with base 1024) the scaled
tenths value is 20480, which does not lie in `[0, 10240)`. -/
theorem c9_counterexample :
    ¬ (scaled16 2251799813685248
        (1024 ^ SystemInfo.get_exp 2251799813685248 1024) < 10240) := by decide

/-- C9 amended: for every magnitude `m ≤ 1024^4` the scaled tenths value
lies in `[0, 10240]` — the interval is closed (exact power boundaries such
as 1024 hit 10240 exactly), and beyond `1024^4` the exponent saturates at
4 and the value can exceed the bound. -/
theorem c9_scaled_bounded (m : Nat) (h : m ≤ 1024 ^ 4) :
    scaled16 m (1024 ^ SystemInfo.get_exp m 1024) ≤ 10240 := by
  have key : ∀ c e : Nat, m ≤ c → c * 10 / 1024 ^ e = 10240 →
      scaled16 m (1024 ^ e) ≤ 10240 := by
    intro c e hm hc
    calc scaled16 m (1024 ^ e) ≤ m * 10 / 1024 ^ e := min_le_right _ _
      _ ≤ c * 10 / 1024 ^ e := Nat.div_le_div_right (Nat.mul_le_mul_right _ hm)
      _ = 10240 := hc
  unfold SystemInfo.get_exp
  split_ifs with h4 h3 h2 h1
  · exact absurd h4 (not_lt.mpr h)
  · exact key (1024 ^ 4) 3 h (by norm_num)
  · exact key (1024 ^ 3) 2 (not_lt.mp h3) (by norm_num)
  · exact key (1024 ^ 2) 1 (not_lt.mp h2) (by norm_num)
  · exact key 1024 0 (not_lt.mp h1) (by norm_num)

/-- C9 witness: the amended bound applied at the 16 GiB magnitude. -/
theorem c9_witness :
    17179869184 ≤ 1024 ^ 4 ∧
    scaled16 17179869184 (1024 ^ SystemInfo.get_exp 17179869184 1024) ≤ 10240 :=
  ⟨by norm_num, c9_scaled_bounded 17179869184 (by norm_num)⟩

/-- C10: with a GPU sample present, the snapshot's `gpu_usage` is the
probe-reported value reduced modulo 256 (the truncating `u64`-to-`u8`
cast); a reported value congruent to 255 modulo 256 therefore coincides
with the no-GPU sentinel. -/
theorem c10_gpu_usage_truncation (total_memory used_memory : Nat)
    (cpus : List Nat) (gi : GpuInfo) :
    (SystemInfo.get_system_info total_memory used_memory cpus (some gi)).gpu_usage =
      gi.gpu_usage % 256 ∧
    (gi.gpu_usage % 256 = 255 →
      (SystemInfo.get_system_info total_memory used_memory cpus (some gi)).gpu_usage =
        (SystemInfo.get_system_info total_memory used_memory cpus none).gpu_usage) :=
  ⟨rfl, fun h => h⟩

/-- C10 witness: a probe-reported utilization of 511 collapses to the
sentinel value 255. -/
theorem c10_witness :
    (SystemInfo.get_system_info 0 0 [] (some ⟨511, 8192, 4096⟩)).gpu_usage =
      (SystemInfo.get_system_info 0 0 [] none).gpu_usage :=
  (c10_gpu_usage_truncation 0 0 [] ⟨511, 8192, 4096⟩).2 (by decide)

end FlipperMonitor
